import Mathlib

/-!
# DustLink session orchestration core — verification development

Shallow embedding of the DustLink repository
(`Source/DustLink/Private/Online/DustLinkSubsystem.cpp` and
`Source/DustLink/Private/MenuSystem/DustLinkMenu.cpp`) and proofs about it.

Modelling conventions:
* Unreal's `FString` is modelled as Lean `String`.  Unreal's
  `FString::operator==` calls `FPlatformString::Stricmp`, i.e. it compares
  **case-insensitively** (`ESearchCase::IgnoreCase`); `FName` comparison is
  case-insensitive as well.  Both are modelled by `fstringEq` below.
* Engine delegate registration/unregistration, backend primitive invocations
  and multicast-delegate broadcasts are modelled as an explicit trace of
  `Event`s emitted by each subsystem call; UI side effects are a trace of
  `MenuAction`s.
* `OnlineSessionInterface` is a `TSharedPtr` set once in the subsystem
  constructor and never reassigned, so its validity is a single boolean that
  is constant across one operation's execution.
* The local player returned by `GetFirstLocalPlayerFromController()` is
  assumed present (the code dereferences it unconditionally); no claim
  concerns that pointer.
-/

/-- Unreal `FString`/`FName` equality: case-insensitive comparison
(`FPlatformString::Stricmp(*Lhs, *Rhs) == 0`), modelled by comparing
ASCII-uppercased strings. -/
def fstringEq (a b : String) : Bool :=
  a.data.map Char.toUpper == b.data.map Char.toUpper

/-- Case-sensitive (codepoint-exact) string equality, for contrast with
`fstringEq`. -/
def fstringEqExact (a b : String) : Bool := a == b

/-- `EOnlineDataAdvertisementType` (Unreal): how a session attribute is
advertised. `ViaOnlineServiceAndPing` makes the attribute advertised and
queryable both through the online service and ping beacons. -/
inductive EOnlineDataAdvertisementType
  | DontAdvertise
  | ViaPingOnly
  | ViaOnlineService
  | ViaOnlineServiceAndPing
deriving DecidableEq, Repr

/-- One entry of the `FSessionSettings` attribute bag (string-valued
attributes only; the repository only ever stores the `"MatchType"` string). -/
structure FSessionAttr where
  key : String
  value : String
  advertType : EOnlineDataAdvertisementType
deriving DecidableEq, Repr

/-- `FOnlineSessionSettings`, restricted to the fields the repository writes
or reads.  Fields the repository never touches are omitted. -/
structure FOnlineSessionSettings where
  bIsLANMatch : Bool
  NumPublicConnections : Int
  bAllowJoinInProgress : Bool
  bShouldAdvertise : Bool
  bUsesPresence : Bool
  bUseLobbiesIfAvailable : Bool
  settings : List FSessionAttr
deriving DecidableEq, Repr

/-- `FOnlineSessionSettings::Get(FName key, FString& out)`: looks the key up
in the attribute bag (FName comparison, case-insensitive) and writes the
value to the out-parameter on a hit.  The caller in `DustLinkMenu.cpp`
initialises the out-parameter to the empty `FString`, so a miss leaves it
`""`. -/
def FOnlineSessionSettings.Get (s : FOnlineSessionSettings) (key : String) : String :=
  match s.settings.find? (fun a => fstringEq a.key key) with
  | some a => a.value
  | none => ""

/-- `FOnlineSession` as far as the repository reads it. -/
structure FOnlineSession where
  SessionSettings : FOnlineSessionSettings
deriving DecidableEq, Repr

/-- `FOnlineSessionSearchResult` as far as the repository reads it. -/
structure FOnlineSessionSearchResult where
  Session : FOnlineSession
deriving DecidableEq, Repr

/-- `FOnlineSessionSearch`, restricted to the fields the repository writes
or reads (`QuerySettings.Set(SEARCH_LOBBIES, true, Equals)` is the
`querySearchLobbies` flag). -/
structure FOnlineSessionSearch where
  MaxSearchResults : Int
  bIsLanQuery : Bool
  querySearchLobbies : Bool
  SearchResults : List FOnlineSessionSearchResult
deriving DecidableEq, Repr

/-- `EOnJoinSessionCompleteResult::Type` (Unreal). -/
inductive EOnJoinSessionCompleteResult
  | Success
  | SessionIsFull
  | SessionDoesNotExist
  | CouldNotRetrieveAddress
  | AlreadyInSession
  | UnknownError
deriving DecidableEq, Repr

/-- Observable side effects of one `UDustLinkSubsystem` call: delegate
registrations/unregistrations on the online session interface, backend
primitive invocations, and broadcasts on the DustLink multicast delegates
(the notification channels). -/
inductive Event
  | RegisterCreate
  | ClearCreate
  | BroadcastCreate (bWasSuccessful : Bool)
  | RegisterFind
  | ClearFind
  | BroadcastFind (results : List FOnlineSessionSearchResult) (bWasSuccessful : Bool)
  | RegisterJoin
  | ClearJoin
  | BroadcastJoin (result : EOnJoinSessionCompleteResult)
  | DestroySessionCall
  | CreatePrimitiveCall (settings : FOnlineSessionSettings)
  | FindPrimitiveCall (search : FOnlineSessionSearch)
  | JoinPrimitiveCall (result : FOnlineSessionSearchResult)
deriving DecidableEq, Repr

/-- Mutable fields of `UDustLinkSubsystem` relevant to the claims.
`OnlineSessionInterfaceValid` models `OnlineSessionInterface.IsValid()`. -/
structure SubsystemState where
  OnlineSessionInterfaceValid : Bool
  LastSessionSettings : Option FOnlineSessionSettings
  LastSessionSearch : Option FOnlineSessionSearch
deriving DecidableEq, Repr

/-- The parts of the engine/backend environment the subsystem consults:
the active online subsystem's name (`Online::GetSubsystem(...)->GetSubsystemName()`),
whether `GetNamedSession(NAME_GameSession)` is non-null, and whether each
backend primitive synchronously accepts (returns `true`) when invoked. -/
structure BackendEnv where
  subsystemName : String
  namedSessionExists : Bool
  createSyncAccept : Bool
  findSyncAccept : Bool
  joinSyncAccept : Bool
deriving DecidableEq, Repr

/-- `UDustLinkSubsystem::CreateSessionSettings` (DustLinkSubsystem.cpp
lines 94-105): builds `LastSessionSettings`.  `bIsLANMatch` is the FName
comparison `GetSubsystemName() == "NULL"`; `bAllowJoinInProgress` is
assigned `true` twice in the source (a duplicated line). -/
def UDustLinkSubsystem.CreateSessionSettings (subsystemName : String)
    (NumPublicConnections : Int) (MatchType : String) : FOnlineSessionSettings :=
  { bIsLANMatch := fstringEq subsystemName "NULL"
    NumPublicConnections := NumPublicConnections
    bAllowJoinInProgress := true
    bShouldAdvertise := true
    bUsesPresence := true
    bUseLobbiesIfAvailable := true
    settings := [⟨"MatchType", MatchType, EOnlineDataAdvertisementType.ViaOnlineServiceAndPing⟩] }

/-- `UDustLinkSubsystem::CreateSession` (lines 62-83).  Returns the updated
state and the emitted event trace.  An invalid interface logs and returns
with no events; otherwise: optionally destroy the existing named session,
register the create-completion delegate, build the settings, invoke the
create primitive; if the primitive synchronously rejects, clear the delegate
and broadcast `false`. -/
def UDustLinkSubsystem.CreateSession (st : SubsystemState) (env : BackendEnv)
    (NumPublicConnections : Int) (MatchType : String) :
    SubsystemState × List Event :=
  if !st.OnlineSessionInterfaceValid then (st, [])
  else
    let destroyEvents := if env.namedSessionExists then [Event.DestroySessionCall] else []
    let newSettings := UDustLinkSubsystem.CreateSessionSettings env.subsystemName NumPublicConnections MatchType
    let st1 := { st with LastSessionSettings := some newSettings }
    let issued := destroyEvents ++ [Event.RegisterCreate, Event.CreatePrimitiveCall newSettings]
    if !env.createSyncAccept then
      (st1, issued ++ [Event.ClearCreate, Event.BroadcastCreate false])
    else
      (st1, issued)

/-- `UDustLinkSubsystem::OnCreateSessionComplete` (lines 189-199): if the
interface is null, log and return; otherwise clear the stored delegate
handle and broadcast the backend-reported flag. -/
def UDustLinkSubsystem.OnCreateSessionComplete (st : SubsystemState)
    (bWasSuccessful : Bool) : List Event :=
  if !st.OnlineSessionInterfaceValid then []
  else [Event.ClearCreate, Event.BroadcastCreate bWasSuccessful]

/-- `UDustLinkSubsystem::FindSessions` (lines 114-134): invalid interface
logs and returns; otherwise register the find-completion delegate, build
`LastSessionSearch`, invoke the find primitive; on synchronous rejection
clear the delegate and broadcast `(TArray(), false)` (a fresh empty array,
not the stored results). -/
def UDustLinkSubsystem.FindSessions (st : SubsystemState) (env : BackendEnv)
    (MaxSearchResults : Int) : SubsystemState × List Event :=
  if !st.OnlineSessionInterfaceValid then (st, [])
  else
    let newSearch : FOnlineSessionSearch :=
      { MaxSearchResults := MaxSearchResults
        bIsLanQuery := fstringEq env.subsystemName "NULL"
        querySearchLobbies := true
        SearchResults := [] }
    let st1 := { st with LastSessionSearch := some newSearch }
    if !env.findSyncAccept then
      (st1, [Event.RegisterFind, Event.FindPrimitiveCall newSearch,
             Event.ClearFind, Event.BroadcastFind [] false])
    else
      (st1, [Event.RegisterFind, Event.FindPrimitiveCall newSearch])

/-- The backend writes the discovered records into the shared
`LastSessionSearch` object before invoking the find-completion callback. -/
def backendDeliverFindResults (st : SubsystemState)
    (results : List FOnlineSessionSearchResult) : SubsystemState :=
  { st with LastSessionSearch :=
      st.LastSessionSearch.map (fun s => { s with SearchResults := results }) }

/-- `UDustLinkSubsystem::OnFindSessionComplete` (lines 208-220): if the
interface is null, log and return; otherwise dereference
`LastSessionSearch` **without a null check** (`LastSessionSearch->SearchResults.Num()`)
— `none` models that null dereference; with a live search object, force the
flag to `false` when the result set is empty, then clear the delegate and
broadcast `(LastSessionSearch->SearchResults, flag)`. -/
def UDustLinkSubsystem.OnFindSessionComplete (st : SubsystemState)
    (bWasSuccessful : Bool) : Option (List Event) :=
  if !st.OnlineSessionInterfaceValid then some []
  else
    match st.LastSessionSearch with
    | none => none
    | some s =>
      let flag := if s.SearchResults.length ≤ 0 then false else bWasSuccessful
      some [Event.ClearFind, Event.BroadcastFind s.SearchResults flag]

/-- `UDustLinkSubsystem::JoinSession` (lines 143-159): an invalid interface
broadcasts `UnknownError` and returns; otherwise register the
join-completion delegate and invoke the join primitive; on synchronous
rejection clear the delegate and broadcast `UnknownError`. -/
def UDustLinkSubsystem.JoinSession (st : SubsystemState) (env : BackendEnv)
    (SessionResult : FOnlineSessionSearchResult) : List Event :=
  if !st.OnlineSessionInterfaceValid then
    [Event.BroadcastJoin EOnJoinSessionCompleteResult.UnknownError]
  else if !env.joinSyncAccept then
    [Event.RegisterJoin, Event.JoinPrimitiveCall SessionResult,
     Event.ClearJoin, Event.BroadcastJoin EOnJoinSessionCompleteResult.UnknownError]
  else
    [Event.RegisterJoin, Event.JoinPrimitiveCall SessionResult]

/-- `UDustLinkSubsystem::OnJoinSessionComplete` (lines 230-240). -/
def UDustLinkSubsystem.OnJoinSessionComplete (st : SubsystemState)
    (Result : EOnJoinSessionCompleteResult) : List Event :=
  if !st.OnlineSessionInterfaceValid then []
  else [Event.ClearJoin, Event.BroadcastJoin Result]

/-- Observable side effects of one `UDustLinkMenu` handler. -/
inductive MenuAction
  | JoinSessionCall (result : FOnlineSessionSearchResult)
  | EnableJoinButton
  | EnableHostButton
  | ClientTravel (address : String)
  | ServerTravel (path : String)
deriving DecidableEq, Repr

/-- The loop body of `UDustLinkMenu::OnFindSessions` (DustLinkMenu.cpp
lines 213-223): scan the delivered results in order; for each, read the
`"MatchType"` attribute into a fresh empty `FString` and compare it with the
configured label using `FString::operator==` (case-insensitive); join the
first hit and `break`.  Returns the record joined, if any. -/
def UDustLinkMenu.scanForMatch : List FOnlineSessionSearchResult → String →
    Option FOnlineSessionSearchResult
  | [], _ => none
  | result :: rest, matchType =>
    let settingsValue := result.Session.SessionSettings.Get "MatchType"
    if fstringEq settingsValue matchType then some result
    else UDustLinkMenu.scanForMatch rest matchType

/-- `UDustLinkMenu::OnFindSessions` (lines 205-229): with a null subsystem
pointer, log and return; otherwise run the scan-and-join loop, then
re-enable the Join button when the flag is false or the result list is
empty. -/
def UDustLinkMenu.OnFindSessions (hasSubsystem : Bool) (MatchType : String)
    (SessionResults : List FOnlineSessionSearchResult) (bWasSuccessful : Bool) :
    List MenuAction :=
  if !hasSubsystem then []
  else
    (match UDustLinkMenu.scanForMatch SessionResults MatchType with
     | some result => [MenuAction.JoinSessionCall result]
     | none => [])
    ++ (if !bWasSuccessful || SessionResults.length == 0 then [MenuAction.EnableJoinButton] else [])

/-- Environment consulted by `UDustLinkMenu::OnJoinSession`: the ambient
online subsystem and its session interface, the address
`GetResolvedConnectString` writes, and the first local player controller. -/
structure MenuJoinEnv where
  subsystemPresent : Bool
  sessionInterfaceValid : Bool
  resolvedAddress : String
  playerControllerPresent : Bool
deriving DecidableEq, Repr

/-- `UDustLinkMenu::OnJoinSession` (lines 239-271): null subsystem, invalid
session interface or missing player controller each log and return early;
otherwise resolve the connect address, re-enable the Join button when the
result is not `Success`, and issue `ClientTravel(address)` unconditionally
(also on failure results). -/
def UDustLinkMenu.OnJoinSession (env : MenuJoinEnv)
    (Result : EOnJoinSessionCompleteResult) : List MenuAction :=
  if !env.subsystemPresent then []
  else if !env.sessionInterfaceValid then []
  else if !env.playerControllerPresent then []
  else
    (if Result != EOnJoinSessionCompleteResult.Success then [MenuAction.EnableJoinButton] else [])
    ++ [MenuAction.ClientTravel env.resolvedAddress]

/-! ## Whole-operation executions

The backend invokes a registered completion callback exactly once, and only
when the primitive synchronously accepted; a synchronously rejected
primitive never fires the callback (spec §4.3 step 6).  Each `run…Exec`
definition is the trace of one issued operation: the issuing call followed
by the asynchronous completion when one occurs. -/

/-- One full create operation: `CreateSession`, then — iff the primitive was
invoked and synchronously accepted — the asynchronous completion with the
backend-reported flag. -/
def runCreateExec (st : SubsystemState) (env : BackendEnv)
    (NumPublicConnections : Int) (MatchType : String) (asyncResult : Bool) :
    List Event :=
  let issue := UDustLinkSubsystem.CreateSession st env NumPublicConnections MatchType
  issue.2 ++
    (if st.OnlineSessionInterfaceValid && env.createSyncAccept then
      UDustLinkSubsystem.OnCreateSessionComplete issue.1 asyncResult
     else [])

/-- One full find operation: `FindSessions`, then — iff the primitive was
invoked and synchronously accepted — the backend stores the discovered
records and fires the completion callback.  `none` propagates the
callback's null dereference (which never occurs on this path, see C10). -/
def runFindExec (st : SubsystemState) (env : BackendEnv) (MaxSearchResults : Int)
    (delivered : List FOnlineSessionSearchResult) (asyncResult : Bool) :
    Option (List Event) :=
  let issue := UDustLinkSubsystem.FindSessions st env MaxSearchResults
  if st.OnlineSessionInterfaceValid && env.findSyncAccept then
    (UDustLinkSubsystem.OnFindSessionComplete
        (backendDeliverFindResults issue.1 delivered) asyncResult).map
      (fun cb => issue.2 ++ cb)
  else some issue.2

/-- One full join operation: `JoinSession`, then — iff the primitive was
invoked and synchronously accepted — the asynchronous completion with the
backend-reported result code. -/
def runJoinExec (st : SubsystemState) (env : BackendEnv)
    (SessionResult : FOnlineSessionSearchResult)
    (asyncResult : EOnJoinSessionCompleteResult) : List Event :=
  UDustLinkSubsystem.JoinSession st env SessionResult ++
    (if st.OnlineSessionInterfaceValid && env.joinSyncAccept then
      UDustLinkSubsystem.OnJoinSessionComplete st asyncResult
     else [])

/-! ## Event classifiers -/

/-- Does the event register a completion delegate (any operation kind)? -/
def Event.isRegister : Event → Bool
  | Event.RegisterCreate => true
  | Event.RegisterFind => true
  | Event.RegisterJoin => true
  | _ => false

/-- Does the event clear (unregister) a completion delegate? -/
def Event.isClear : Event → Bool
  | Event.ClearCreate => true
  | Event.ClearFind => true
  | Event.ClearJoin => true
  | _ => false

/-- Does the event broadcast on any notification channel? -/
def Event.isBroadcast : Event → Bool
  | Event.BroadcastCreate _ => true
  | Event.BroadcastFind _ _ => true
  | Event.BroadcastJoin _ => true
  | _ => false

/-- Number of delegate registrations in a trace. -/
def countRegister (tr : List Event) : Nat := (tr.filter Event.isRegister).length

/-- Number of delegate unregistrations in a trace. -/
def countClear (tr : List Event) : Nat := (tr.filter Event.isClear).length

/-- Number of notification-channel broadcasts in a trace. -/
def countBroadcast (tr : List Event) : Nat := (tr.filter Event.isBroadcast).length

/-- The spec's wording of the join-selection rule, stated verbatim from the
spec (`SelectAndJoin`): the **first** record whose match-type attribute
equals the label by **exact case-sensitive** string equality.  This is the
spec-side definition, to be compared with the source-side
`UDustLinkMenu.scanForMatch`. -/
def selectAndJoinSpec (results : List FOnlineSessionSearchResult)
    (matchType : String) : Option FOnlineSessionSearchResult :=
  results.find? (fun r => fstringEqExact (r.Session.SessionSettings.Get "MatchType") matchType)

/-- A discovered session record advertising the given match-type label. -/
def mkResult (matchType : String) : FOnlineSessionSearchResult :=
  { Session := { SessionSettings :=
      { bIsLANMatch := false
        NumPublicConnections := 0
        bAllowJoinInProgress := true
        bShouldAdvertise := true
        bUsesPresence := true
        bUseLobbiesIfAvailable := true
        settings := [⟨"MatchType", matchType, EOnlineDataAdvertisementType.ViaOnlineServiceAndPing⟩] } } }

/-- A sample backend environment (null/offline subsystem, no existing
session, all primitives synchronously accepting). -/
def sampleEnv : BackendEnv :=
  { subsystemName := "NULL"
    namedSessionExists := false
    createSyncAccept := true
    findSyncAccept := true
    joinSyncAccept := true }

/-- Subsystem state with a valid session interface and no retained objects. -/
def validState : SubsystemState :=
  { OnlineSessionInterfaceValid := true
    LastSessionSettings := none
    LastSessionSearch := none }

/-- Subsystem state whose session interface is invalid. -/
def invalidState : SubsystemState :=
  { OnlineSessionInterfaceValid := false
    LastSessionSettings := none
    LastSessionSearch := none }

/-- Is the menu action a `JoinSession` call into the subsystem? -/
def MenuAction.isJoinCall : MenuAction → Bool
  | MenuAction.JoinSessionCall _ => true
  | _ => false

/-! ## Theorems -/

/-- **C7**: for every slot count and match-type label, the built session
settings advertise, use presence, allow join-in-progress and prefer lobby
transport (all `true`), set the public-connection count to the given slot
count, derive the LAN flag from whether the active subsystem is the
null/offline implementation, and store the match-type label as an attribute
advertised via online service and ping (queryable). -/
theorem createSessionSettings_spec (subsystemName : String) (n : Int) (mt : String) :
    (UDustLinkSubsystem.CreateSessionSettings subsystemName n mt).bShouldAdvertise = true ∧
    (UDustLinkSubsystem.CreateSessionSettings subsystemName n mt).bUsesPresence = true ∧
    (UDustLinkSubsystem.CreateSessionSettings subsystemName n mt).bAllowJoinInProgress = true ∧
    (UDustLinkSubsystem.CreateSessionSettings subsystemName n mt).bUseLobbiesIfAvailable = true ∧
    (UDustLinkSubsystem.CreateSessionSettings subsystemName n mt).NumPublicConnections = n ∧
    (UDustLinkSubsystem.CreateSessionSettings subsystemName n mt).bIsLANMatch
      = fstringEq subsystemName "NULL" ∧
    (UDustLinkSubsystem.CreateSessionSettings subsystemName n mt).settings
      = [⟨"MatchType", mt, EOnlineDataAdvertisementType.ViaOnlineServiceAndPing⟩] :=
  ⟨rfl, rfl, rfl, rfl, rfl, rfl, rfl⟩

/-- **C3**: with a valid interface and an initialized search object, the
find-completion callback publishes the stored result list together with a
flag that is `false` whenever the stored result set is empty (regardless of
the backend-reported flag) and is the backend's flag unchanged otherwise. -/
theorem findComplete_empty_is_failure (st : SubsystemState)
    (s : FOnlineSessionSearch) (b : Bool)
    (hv : st.OnlineSessionInterfaceValid = true)
    (hs : st.LastSessionSearch = some s) :
    ∃ flag, UDustLinkSubsystem.OnFindSessionComplete st b =
        some [Event.ClearFind, Event.BroadcastFind s.SearchResults flag] ∧
      (s.SearchResults = [] → flag = false) ∧
      (s.SearchResults ≠ [] → flag = b) := by
  refine ⟨if s.SearchResults.length ≤ 0 then false else b, ?_, ?_, ?_⟩
  · simp [UDustLinkSubsystem.OnFindSessionComplete, hv, hs]
  · intro h
    simp [h]
  · intro h
    simp [Nat.le_zero, List.length_eq_zero, h]

/-- Witness for C3: an initialized but empty search is published as
`([], false)` even though the backend reported `true`. -/
theorem findComplete_empty_is_failure_witness :
    UDustLinkSubsystem.OnFindSessionComplete
        ⟨true, none, some ⟨20000, true, true, []⟩⟩ true =
      some [Event.ClearFind, Event.BroadcastFind [] false] := by
  obtain ⟨flag, heq, hempty, -⟩ :=
    findComplete_empty_is_failure ⟨true, none, some ⟨20000, true, true, []⟩⟩
      ⟨20000, true, true, []⟩ true rfl rfl
  rw [heq, hempty rfl]

/-- **C5**: with a valid interface and an existing named session,
`CreateSession` emits the destroy of the existing session first — before
the delegate registration and before the create primitive — and does so
whether or not the create primitive subsequently accepts. -/
theorem createSession_replaces_existing (st : SubsystemState) (env : BackendEnv)
    (n : Int) (mt : String)
    (hv : st.OnlineSessionInterfaceValid = true)
    (hex : env.namedSessionExists = true) :
    (UDustLinkSubsystem.CreateSession st env n mt).2 =
      Event.DestroySessionCall :: Event.RegisterCreate ::
      Event.CreatePrimitiveCall
        (UDustLinkSubsystem.CreateSessionSettings env.subsystemName n mt) ::
      (if env.createSyncAccept then []
       else [Event.ClearCreate, Event.BroadcastCreate false]) := by
  cases hca : env.createSyncAccept <;>
    simp [UDustLinkSubsystem.CreateSession, hv, hex, hca]

/-- Witness for C5: a concrete create over an existing session (create
primitive accepting) whose first emitted event is the destroy call. -/
theorem createSession_replaces_existing_witness :
    (UDustLinkSubsystem.CreateSession validState
        { sampleEnv with namedSessionExists := true } 4 "Error404").2 =
      [Event.DestroySessionCall, Event.RegisterCreate,
       Event.CreatePrimitiveCall
         (UDustLinkSubsystem.CreateSessionSettings "NULL" 4 "Error404")] := by
  rw [createSession_replaces_existing validState
      { sampleEnv with namedSessionExists := true } 4 "Error404" rfl rfl]
  rfl

/-- **C6**: with a valid interface, if the create primitive synchronously
rejects, the issuing call itself ends by clearing the just-registered
delegate and broadcasting `CreateComplete(false)`, and the call leaves no
pending registration (registrations and clears balance). -/
theorem createSession_syncReject_publishes (st : SubsystemState) (env : BackendEnv)
    (n : Int) (mt : String)
    (hv : st.OnlineSessionInterfaceValid = true)
    (hrej : env.createSyncAccept = false) :
    (UDustLinkSubsystem.CreateSession st env n mt).2 =
      (if env.namedSessionExists then [Event.DestroySessionCall] else []) ++
      [Event.RegisterCreate,
       Event.CreatePrimitiveCall
         (UDustLinkSubsystem.CreateSessionSettings env.subsystemName n mt),
       Event.ClearCreate, Event.BroadcastCreate false] ∧
    countRegister (UDustLinkSubsystem.CreateSession st env n mt).2 = 1 ∧
    countClear (UDustLinkSubsystem.CreateSession st env n mt).2 = 1 := by
  refine ⟨?_, ?_, ?_⟩ <;>
    cases hex : env.namedSessionExists <;>
      simp [UDustLinkSubsystem.CreateSession, countRegister, countClear,
        Event.isRegister, Event.isClear, hv, hrej, hex]

/-- Witness for C6: a concrete synchronously-rejected create publishes
`CreateComplete(false)` in the issuing call with balanced registration. -/
theorem createSession_syncReject_publishes_witness :
    (UDustLinkSubsystem.CreateSession validState
        { sampleEnv with createSyncAccept := false } 4 "Error404").2 =
      [Event.RegisterCreate,
       Event.CreatePrimitiveCall
         (UDustLinkSubsystem.CreateSessionSettings "NULL" 4 "Error404"),
       Event.ClearCreate, Event.BroadcastCreate false] ∧
    countClear (UDustLinkSubsystem.CreateSession validState
        { sampleEnv with createSyncAccept := false } 4 "Error404").2 = 1 := by
  obtain ⟨h1, -, h3⟩ :=
    createSession_syncReject_publishes validState
      { sampleEnv with createSyncAccept := false } 4 "Error404" rfl rfl
  exact ⟨h1, h3⟩

/-- **C1**: for every issued operation (valid interface at call time) of
kind create, find or join, the full execution contains exactly one delegate
registration and exactly one unregistration; on synchronous rejection the
unregistration happens in the issuing call itself, otherwise the issuing
call performs none and the completion callback performs it. -/
theorem unregister_exactly_once
    (st : SubsystemState) (env : BackendEnv) (n : Int) (mt : String) (cRes : Bool)
    (maxR : Int) (delivered : List FOnlineSessionSearchResult) (fRes : Bool)
    (sr : FOnlineSessionSearchResult) (jRes : EOnJoinSessionCompleteResult)
    (hv : st.OnlineSessionInterfaceValid = true) :
    (countRegister (runCreateExec st env n mt cRes) = 1 ∧
     countClear (runCreateExec st env n mt cRes) = 1 ∧
     (env.createSyncAccept = false →
        countClear (UDustLinkSubsystem.CreateSession st env n mt).2 = 1) ∧
     (env.createSyncAccept = true →
        countClear (UDustLinkSubsystem.CreateSession st env n mt).2 = 0)) ∧
    (∃ tr, runFindExec st env maxR delivered fRes = some tr ∧
       countRegister tr = 1 ∧ countClear tr = 1 ∧
       (env.findSyncAccept = false →
          countClear (UDustLinkSubsystem.FindSessions st env maxR).2 = 1) ∧
       (env.findSyncAccept = true →
          countClear (UDustLinkSubsystem.FindSessions st env maxR).2 = 0)) ∧
    (countRegister (runJoinExec st env sr jRes) = 1 ∧
     countClear (runJoinExec st env sr jRes) = 1 ∧
     (env.joinSyncAccept = false →
        countClear (UDustLinkSubsystem.JoinSession st env sr) = 1) ∧
     (env.joinSyncAccept = true →
        countClear (UDustLinkSubsystem.JoinSession st env sr) = 0)) := by
  refine ⟨?_, ?_, ?_⟩
  · cases hca : env.createSyncAccept <;> cases hex : env.namedSessionExists <;>
      simp [runCreateExec, UDustLinkSubsystem.CreateSession,
        UDustLinkSubsystem.OnCreateSessionComplete, countRegister, countClear,
        Event.isRegister, Event.isClear, hv, hca, hex]
  · cases hfa : env.findSyncAccept <;>
      simp [runFindExec, UDustLinkSubsystem.FindSessions,
        UDustLinkSubsystem.OnFindSessionComplete, backendDeliverFindResults,
        countRegister, countClear, Event.isRegister, Event.isClear, hv, hfa]
  · cases hja : env.joinSyncAccept <;>
      simp [runJoinExec, UDustLinkSubsystem.JoinSession,
        UDustLinkSubsystem.OnJoinSessionComplete, countRegister, countClear,
        Event.isRegister, Event.isClear, hv, hja]

/-- Witness for C1: a concrete accepted create registers once and clears
once across issue + completion. -/
theorem unregister_exactly_once_witness :
    countRegister (runCreateExec validState sampleEnv 4 "Error404" true) = 1 ∧
    countClear (runCreateExec validState sampleEnv 4 "Error404" true) = 1 :=
  ⟨(unregister_exactly_once validState sampleEnv 4 "Error404" true 20000 [] true
      (mkResult "Error404") EOnJoinSessionCompleteResult.Success rfl).1.1,
   (unregister_exactly_once validState sampleEnv 4 "Error404" true 20000 [] true
      (mkResult "Error404") EOnJoinSessionCompleteResult.Success rfl).1.2.1⟩

/-- Counterexample to C2 as stated: a `CreateSession` (or `FindSessions`)
call that fails because the backend handle is invalid at call time emits no
events at all — in particular it publishes nothing on the completion
channel, contradicting "no failure path returns without publishing". -/
theorem failure_without_publish_counterexample :
    invalidState.OnlineSessionInterfaceValid = false ∧
    (UDustLinkSubsystem.CreateSession invalidState sampleEnv 4 "Error404").2 = [] ∧
    (UDustLinkSubsystem.FindSessions invalidState sampleEnv 20000).2 = [] ∧
    countBroadcast (UDustLinkSubsystem.CreateSession invalidState sampleEnv 4 "Error404").2 = 0 ∧
    countBroadcast (UDustLinkSubsystem.FindSessions invalidState sampleEnv 20000).2 = 0 :=
  ⟨rfl, rfl, rfl, rfl, rfl⟩

/-- **C2 amended**: synchronous rejections and asynchronous completions
(failures included) of create, find and join all publish on the operation's
channel, and `JoinSession` also publishes `UnknownError` when the backend
handle is invalid at call time; but `CreateSession` and `FindSessions`
return without publishing anything when the backend handle is invalid. -/
theorem failures_publish_amended
    (st : SubsystemState) (env : BackendEnv) (n : Int) (mt : String) (cRes : Bool)
    (maxR : Int) (delivered : List FOnlineSessionSearchResult) (fRes : Bool)
    (sr : FOnlineSessionSearchResult) (jRes : EOnJoinSessionCompleteResult) :
    (st.OnlineSessionInterfaceValid = true → env.createSyncAccept = false →
       Event.BroadcastCreate false ∈ (UDustLinkSubsystem.CreateSession st env n mt).2) ∧
    (st.OnlineSessionInterfaceValid = true → env.createSyncAccept = true →
       Event.BroadcastCreate cRes ∈ runCreateExec st env n mt cRes) ∧
    (st.OnlineSessionInterfaceValid = true → env.findSyncAccept = false →
       Event.BroadcastFind [] false ∈ (UDustLinkSubsystem.FindSessions st env maxR).2) ∧
    (st.OnlineSessionInterfaceValid = true → env.findSyncAccept = true →
       ∃ tr flag, runFindExec st env maxR delivered fRes = some tr ∧
         Event.BroadcastFind delivered flag ∈ tr ∧
         (fRes = false → flag = false) ∧ (delivered = [] → flag = false)) ∧
    (st.OnlineSessionInterfaceValid = false →
       Event.BroadcastJoin EOnJoinSessionCompleteResult.UnknownError
         ∈ UDustLinkSubsystem.JoinSession st env sr) ∧
    (st.OnlineSessionInterfaceValid = true → env.joinSyncAccept = false →
       Event.BroadcastJoin EOnJoinSessionCompleteResult.UnknownError
         ∈ UDustLinkSubsystem.JoinSession st env sr) ∧
    (st.OnlineSessionInterfaceValid = true → env.joinSyncAccept = true →
       Event.BroadcastJoin jRes ∈ runJoinExec st env sr jRes) ∧
    (st.OnlineSessionInterfaceValid = false →
       (UDustLinkSubsystem.CreateSession st env n mt).2 = [] ∧
       (UDustLinkSubsystem.FindSessions st env maxR).2 = []) := by
  refine ⟨?_, ?_, ?_, ?_, ?_, ?_, ?_, ?_⟩
  · intro hv hca
    cases hex : env.namedSessionExists <;>
      simp [UDustLinkSubsystem.CreateSession, hv, hca, hex]
  · intro hv hca
    cases hex : env.namedSessionExists <;>
      simp [runCreateExec, UDustLinkSubsystem.CreateSession,
        UDustLinkSubsystem.OnCreateSessionComplete, hv, hca, hex]
  · intro hv hfa
    simp [UDustLinkSubsystem.FindSessions, hv, hfa]
  · intro hv hfa
    refine ⟨[Event.RegisterFind,
             Event.FindPrimitiveCall
               ⟨maxR, fstringEq env.subsystemName "NULL", true, []⟩,
             Event.ClearFind,
             Event.BroadcastFind delivered
               (if delivered.length ≤ 0 then false else fRes)],
            if delivered.length ≤ 0 then false else fRes, ?_, ?_, ?_, ?_⟩
    · simp [runFindExec, UDustLinkSubsystem.FindSessions,
        UDustLinkSubsystem.OnFindSessionComplete, backendDeliverFindResults, hv, hfa]
    · simp
    · intro h
      simp [h]
    · intro h
      simp [h]
  · intro hv
    simp [UDustLinkSubsystem.JoinSession, hv]
  · intro hv hja
    simp [UDustLinkSubsystem.JoinSession, hv, hja]
  · intro hv hja
    simp [runJoinExec, UDustLinkSubsystem.JoinSession,
      UDustLinkSubsystem.OnJoinSessionComplete, hv, hja]
  · intro hv
    simp [UDustLinkSubsystem.CreateSession, UDustLinkSubsystem.FindSessions, hv]

/-- Witness for C2 (amended): a join with an invalid backend handle still
publishes `UnknownError`. -/
theorem failures_publish_amended_witness :
    Event.BroadcastJoin EOnJoinSessionCompleteResult.UnknownError
      ∈ UDustLinkSubsystem.JoinSession invalidState sampleEnv (mkResult "Coop") :=
  (failures_publish_amended invalidState sampleEnv 4 "Error404" true 20000 [] true
    (mkResult "Coop") EOnJoinSessionCompleteResult.Success).2.2.2.2.1 rfl

/-- Counterexample to C4 as stated: Unreal's `FString::operator==` is
case-insensitive, so the scan joins a record whose label differs from the
target in case — a record the claim's exact case-sensitive rule would skip
(the spec-side `selectAndJoinSpec` selects nothing here, so under the claim
no join would be issued). -/
theorem scanForMatch_caseSensitive_counterexample :
    UDustLinkMenu.scanForMatch [mkResult "error404"] "Error404"
      = some (mkResult "error404") ∧
    selectAndJoinSpec [mkResult "error404"] "Error404" = none := by
  constructor
  · decide
  · decide

/-- **C4 amended**: the selection scans the list in order and issues a join
for exactly the first record whose match-type attribute equals the label
under Unreal's case-insensitive `FString` equality (full-string comparison,
no partial match), ignoring all later records; if no record matches
case-insensitively, no join is issued. -/
theorem scanForMatch_first_match (results : List FOnlineSessionSearchResult)
    (matchType : String) :
    (∀ r, UDustLinkMenu.scanForMatch results matchType = some r →
       ∃ i, ∃ h : i < results.length,
         results.get ⟨i, h⟩ = r ∧
         fstringEq (r.Session.SessionSettings.Get "MatchType") matchType = true ∧
         ∀ x ∈ results.take i,
           fstringEq (x.Session.SessionSettings.Get "MatchType") matchType = false) ∧
    (UDustLinkMenu.scanForMatch results matchType = none →
       ∀ r ∈ results,
         fstringEq (r.Session.SessionSettings.Get "MatchType") matchType = false) := by
  induction results with
  | nil =>
    refine ⟨?_, ?_⟩
    · intro r hr
      simp [UDustLinkMenu.scanForMatch] at hr
    · intro _ r hr
      simp at hr
  | cons hd tl ih =>
    by_cases hp : fstringEq (hd.Session.SessionSettings.Get "MatchType") matchType = true
    · refine ⟨?_, ?_⟩
      · intro r hr
        have heq : hd = r := by
          simpa [UDustLinkMenu.scanForMatch, hp] using hr
        subst heq
        exact ⟨0, Nat.succ_pos _, rfl, hp, by simp⟩
      · intro hnone
        simp [UDustLinkMenu.scanForMatch, hp] at hnone
    · have hp' : fstringEq (hd.Session.SessionSettings.Get "MatchType") matchType = false :=
        Bool.eq_false_iff.mpr hp
      refine ⟨?_, ?_⟩
      · intro r hr
        have hr' : UDustLinkMenu.scanForMatch tl matchType = some r := by
          simpa [UDustLinkMenu.scanForMatch, hp'] using hr
        obtain ⟨i, h, hget, hmatch, hpre⟩ := ih.1 r hr'
        refine ⟨i + 1, Nat.succ_lt_succ h, by simpa using hget, hmatch, ?_⟩
        intro x hx
        rcases List.mem_cons.mp (by simpa [List.take_succ_cons] using hx) with rfl | hx'
        · exact hp'
        · exact hpre x hx'
      · intro hnone r hr
        have hn' : UDustLinkMenu.scanForMatch tl matchType = none := by
          simpa [UDustLinkMenu.scanForMatch, hp'] using hnone
        rcases List.mem_cons.mp hr with rfl | hr'
        · exact hp'
        · exact ih.2 hn' r hr'

/-- Witness for C4 (amended), on the spec's P4 data with the first record
differing: the scan selects a record that matches and is preceded only by
non-matching records. -/
theorem scanForMatch_first_match_witness :
    ∃ i, ∃ h : i < ([mkResult "Coop", mkResult "Error404", mkResult "Error404"]
        : List FOnlineSessionSearchResult).length,
      [mkResult "Coop", mkResult "Error404", mkResult "Error404"].get ⟨i, h⟩
        = mkResult "Error404" ∧
      fstringEq ((mkResult "Error404").Session.SessionSettings.Get "MatchType")
        "Error404" = true ∧
      ∀ x ∈ [mkResult "Coop", mkResult "Error404", mkResult "Error404"].take i,
        fstringEq (x.Session.SessionSettings.Get "MatchType") "Error404" = false :=
  (scanForMatch_first_match
      [mkResult "Coop", mkResult "Error404", mkResult "Error404"] "Error404").1
    (mkResult "Error404") (by decide)

/-- **C8**: when the ambient subsystem, its session interface and the
player controller are all available, the menu's join handler issues a
client travel to the resolved address for every result — failure results
included — and re-enables the Join button exactly on non-success results. -/
theorem onJoinSession_travels_even_on_failure (env : MenuJoinEnv)
    (Result : EOnJoinSessionCompleteResult)
    (h1 : env.subsystemPresent = true)
    (h2 : env.sessionInterfaceValid = true)
    (h3 : env.playerControllerPresent = true) :
    MenuAction.ClientTravel env.resolvedAddress ∈ UDustLinkMenu.OnJoinSession env Result ∧
    (MenuAction.EnableJoinButton ∈ UDustLinkMenu.OnJoinSession env Result ↔
      Result ≠ EOnJoinSessionCompleteResult.Success) := by
  cases Result <;> simp [UDustLinkMenu.OnJoinSession, h1, h2, h3]

/-- Witness for C8: a failed join still travels to the resolved address
and re-enables the Join button. -/
theorem onJoinSession_travels_even_on_failure_witness :
    MenuAction.ClientTravel "127.0.0.1:7777" ∈
      UDustLinkMenu.OnJoinSession ⟨true, true, "127.0.0.1:7777", true⟩
        EOnJoinSessionCompleteResult.UnknownError ∧
    (MenuAction.EnableJoinButton ∈
        UDustLinkMenu.OnJoinSession ⟨true, true, "127.0.0.1:7777", true⟩
          EOnJoinSessionCompleteResult.UnknownError ↔
      EOnJoinSessionCompleteResult.UnknownError ≠ EOnJoinSessionCompleteResult.Success) :=
  onJoinSession_travels_even_on_failure ⟨true, true, "127.0.0.1:7777", true⟩
    EOnJoinSessionCompleteResult.UnknownError rfl rfl rfl

/-- If some delivered record's match-type attribute equals the label
(case-insensitively), the scan selects a record. -/
theorem scanForMatch_isSome_of_exists (results : List FOnlineSessionSearchResult)
    (matchType : String)
    (h : ∃ r ∈ results,
      fstringEq (r.Session.SessionSettings.Get "MatchType") matchType = true) :
    (UDustLinkMenu.scanForMatch results matchType).isSome = true := by
  induction results with
  | nil => simp at h
  | cons hd tl ih =>
    by_cases hp : fstringEq (hd.Session.SessionSettings.Get "MatchType") matchType = true
    · simp [UDustLinkMenu.scanForMatch, hp]
    · have hp' : fstringEq (hd.Session.SessionSettings.Get "MatchType") matchType = false :=
        Bool.eq_false_iff.mpr hp
      obtain ⟨r, hr, hm⟩ := h
      rcases List.mem_cons.mp hr with rfl | hr'
      · exact absurd hm hp
      · simpa [UDustLinkMenu.scanForMatch, hp'] using ih ⟨r, hr', hm⟩

/-- **C9**: the menu's find-completion handler performs the auto-join scan
independently of the delivered success flag: with the subsystem present and
a record matching the configured label, a join is issued even when the flag
is `false`, and the join calls in the action trace are identical for both
flag values. -/
theorem onFindSessions_scans_regardless_of_flag (MatchType : String)
    (SessionResults : List FOnlineSessionSearchResult) (bWasSuccessful : Bool)
    (h : ∃ r ∈ SessionResults,
      fstringEq (r.Session.SessionSettings.Get "MatchType") MatchType = true) :
    (∃ r, MenuAction.JoinSessionCall r ∈
        UDustLinkMenu.OnFindSessions true MatchType SessionResults bWasSuccessful) ∧
    (UDustLinkMenu.OnFindSessions true MatchType SessionResults false).filter
        MenuAction.isJoinCall =
      (UDustLinkMenu.OnFindSessions true MatchType SessionResults true).filter
        MenuAction.isJoinCall := by
  constructor
  · obtain ⟨r, hr⟩ := Option.isSome_iff_exists.mp (scanForMatch_isSome_of_exists _ _ h)
    refine ⟨r, ?_⟩
    simp [UDustLinkMenu.OnFindSessions, hr]
  · cases hlen : SessionResults.length == 0 <;>
      simp [UDustLinkMenu.OnFindSessions, hlen, List.filter_append,
        MenuAction.isJoinCall]

/-- Witness for C9: with a failed flag and a matching record, the handler
still issues a join. -/
theorem onFindSessions_scans_regardless_of_flag_witness :
    ∃ r, MenuAction.JoinSessionCall r ∈
      UDustLinkMenu.OnFindSessions true "Error404" [mkResult "Error404"] false :=
  (onFindSessions_scans_regardless_of_flag "Error404" [mkResult "Error404"] false
    ⟨mkResult "Error404", by decide, by decide⟩).1

/-- **C10**: the find-completion callback dereferences `LastSessionSearch`
without a null check — with a valid interface and no prior `FindSessions`
call it hits the null dereference (`none`) — but `FindSessions` initializes
the search object, and under that precondition (and in the full find
execution, where the callback only fires after `FindSessions` ran) the
access never hits the null case. -/
theorem onFindSessionComplete_deref_safe (st : SubsystemState) (env : BackendEnv)
    (maxR : Int) (delivered : List FOnlineSessionSearchResult) (b : Bool)
    (hv : st.OnlineSessionInterfaceValid = true) :
    UDustLinkSubsystem.OnFindSessionComplete
        { OnlineSessionInterfaceValid := true, LastSessionSettings := none,
          LastSessionSearch := none } b = none ∧
    ((UDustLinkSubsystem.FindSessions st env maxR).1.LastSessionSearch).isSome = true ∧
    (∀ s, st.LastSessionSearch = some s →
       (UDustLinkSubsystem.OnFindSessionComplete st b).isSome = true) ∧
    runFindExec st env maxR delivered b ≠ none := by
  refine ⟨rfl, ?_, ?_, ?_⟩
  · cases hfa : env.findSyncAccept <;>
      simp [UDustLinkSubsystem.FindSessions, hv, hfa]
  · intro s hs
    simp [UDustLinkSubsystem.OnFindSessionComplete, hv, hs]
  · cases hfa : env.findSyncAccept <;>
      simp [runFindExec, UDustLinkSubsystem.FindSessions,
        UDustLinkSubsystem.OnFindSessionComplete, backendDeliverFindResults, hv, hfa]

/-- Witness for C10: after a concrete `FindSessions`, the search object is
initialized. -/
theorem onFindSessionComplete_deref_safe_witness :
    ((UDustLinkSubsystem.FindSessions validState sampleEnv 20000).1.LastSessionSearch).isSome
      = true :=
  (onFindSessionComplete_deref_safe validState sampleEnv 20000 [] true rfl).2.1
